import Mathlib

/-!
Verification of the workload compiler and the progress/timeout coordination
protocol of the graph-database-benchmark repository.

The embedding below mirrors, definition by definition:
  * `src/host/compiler/workload_compiler.py` (the `WorkloadCompiler` class),
  * `src/host/timeout_monitor.py` (the `TimeoutMonitor` class),
  * `src/host/progress_server.py` (the `ProgressHandler` event dispatch).

Python's global `random` module is modelled as an explicit generator state
threaded through every function that draws randomness; `random.seed(s)`
becomes `seedState s`, `random.choice` / `random.sample` become `randBelow`
based helpers with the same observable contract (an element of the list for
`choice`; positionally-without-replacement selection for `sample`).
JSON dictionaries are modelled as insertion-ordered association lists,
matching CPython dict semantics, so structural equality of `Json` values
corresponds to byte equality of `json.dump` output.
-/

namespace GraphBench

/-- JSON values as produced by the compiler.  Integers (`int`) cover every
number the compiler itself emits; `num` (exact rationals) is used only to
express the spec's fractional canonical mapping. -/
inductive Json where
  | null : Json
  | bool (b : Bool) : Json
  | int (n : Int) : Json
  | num (q : Rat) : Json
  | str (s : String) : Json
  | arr (elems : List Json) : Json
  | obj (fields : List (String × Json)) : Json
deriving Repr

/-- State of the (seeded) pseudo-random generator standing in for Python's
global `random` module.  The concrete update function is irrelevant to the
claims; what matters is that it is a pure function of the state. -/
structure RandState where
  val : Nat
deriving Repr, DecidableEq

/-- One draw from the generator: a raw 31-bit value plus the next state. -/
def RandState.next (g : RandState) : Nat × RandState :=
  let v := (g.val * 1103515245 + 12345) % 2147483648
  (v, ⟨v⟩)

/-- `random.seed(s)`: the generator state becomes a function of the seed
alone, independent of whatever the global state was before the call. -/
def seedState (s : Nat) : RandState :=
  ⟨(s + 1) % 2147483648⟩

/-- Draw a natural number below `n` (used by `choice` and `sample`). -/
def randBelow (n : Nat) (g : RandState) : Nat × RandState :=
  let p := g.next
  (p.1 % n, p.2)

theorem randBelow_lt (n : Nat) (g : RandState) (h : 0 < n) :
    (randBelow n g).1 < n := by
  simpa [randBelow] using Nat.mod_lt _ h

/-- `random.sample(pool, k)`: `k` draws without positional replacement.
Each step removes the chosen position from the working copy, so positions
never repeat (values may repeat when `pool` itself holds duplicates, exactly
as in Python).  Call sites clamp `k` to `pool.length` first, so the
empty-pool branch is never reached there. -/
def pySample {α : Type} : Nat → List α → RandState → List α × RandState
  | 0, _, g => ([], g)
  | _ + 1, [], g => ([], g)
  | k + 1, p :: ps, g =>
      let d := randBelow (p :: ps).length g
      let x := (p :: ps).getD d.1 p
      let r := pySample k ((p :: ps).eraseIdx d.1) d.2
      (x :: r.1, r.2)

theorem pySample_cons {α : Type} (k : Nat) (p : α) (ps : List α) (g : RandState) :
    pySample (k + 1) (p :: ps) g =
      ((p :: ps).getD (randBelow (p :: ps).length g).1 p ::
        (pySample k ((p :: ps).eraseIdx (randBelow (p :: ps).length g).1)
          (randBelow (p :: ps).length g).2).1,
       (pySample k ((p :: ps).eraseIdx (randBelow (p :: ps).length g).1)
          (randBelow (p :: ps).length g).2).2) := rfl

theorem pySample_length {α : Type} (k : Nat) :
    ∀ (pool : List α) (g : RandState), k ≤ pool.length →
      (pySample k pool g).1.length = k := by
  induction k with
  | zero =>
      intro pool g _
      cases pool <;> simp [pySample]
  | succ k ih =>
      intro pool g h
      match pool with
      | [] => simp at h
      | p :: ps =>
          have hlen : 0 < (p :: ps).length := by simp
          have hi := randBelow_lt (p :: ps).length g hlen
          have hk : k ≤ ((p :: ps).eraseIdx (randBelow (p :: ps).length g).1).length := by
            rw [List.length_eraseIdx]
            simp only [hi, if_pos]
            omega
          have hrec := ih ((p :: ps).eraseIdx (randBelow (p :: ps).length g).1)
            (randBelow (p :: ps).length g).2 hk
          rw [pySample_cons, List.length_cons, hrec]

theorem pySample_subset {α : Type} (k : Nat) :
    ∀ (pool : List α) (g : RandState) (x : α),
      x ∈ (pySample k pool g).1 → x ∈ pool := by
  induction k with
  | zero =>
      intro pool g x hx
      cases pool <;> simp [pySample] at hx
  | succ k ih =>
      intro pool g x hx
      match pool with
      | [] => simp [pySample] at hx
      | p :: ps =>
          have hlen : 0 < (p :: ps).length := by simp
          have hi := randBelow_lt (p :: ps).length g hlen
          rw [pySample_cons, List.mem_cons] at hx
          rcases hx with hx | hx
          · rw [List.getD_eq_getElem _ _ hi] at hx
            exact hx ▸ List.getElem_mem hi
          · have hmem := ih _ (randBelow (p :: ps).length g).2 x hx
            exact (List.eraseIdx_sublist (p :: ps) (randBelow (p :: ps).length g).1).mem hmem

theorem getElem_not_mem_eraseIdx {α : Type} :
    ∀ (l : List α) (i : Nat) (h : i < l.length), l.Nodup →
      l[i] ∉ l.eraseIdx i := by
  intro l
  induction l with
  | nil => intro i h; simp at h
  | cons a t ih =>
      intro i h hnd
      match i with
      | 0 =>
          simpa [List.eraseIdx] using (List.nodup_cons.mp hnd).1
      | i + 1 =>
          have ht : i < t.length := by simpa using Nat.lt_of_succ_lt_succ h
          simp only [List.eraseIdx, List.getElem_cons_succ, List.mem_cons]
          rintro (hcase | hcase)
          · exact (List.nodup_cons.mp hnd).1 (hcase ▸ List.getElem_mem ht)
          · exact ih i ht (List.nodup_cons.mp hnd).2 hcase

theorem pySample_nodup {α : Type} (k : Nat) :
    ∀ (pool : List α) (g : RandState), pool.Nodup →
      (pySample k pool g).1.Nodup := by
  induction k with
  | zero =>
      intro pool g _
      cases pool <;> simp [pySample]
  | succ k ih =>
      intro pool g hnd
      match pool with
      | [] => simp [pySample]
      | p :: ps =>
          have hlen : 0 < (p :: ps).length := by simp
          have hi := randBelow_lt (p :: ps).length g hlen
          have hsub : ((p :: ps).eraseIdx (randBelow (p :: ps).length g).1).Nodup :=
            (List.eraseIdx_sublist (p :: ps) (randBelow (p :: ps).length g).1).nodup hnd
          have ihres := ih _ (randBelow (p :: ps).length g).2 hsub
          rw [pySample_cons, List.nodup_cons]
          refine ⟨?_, ihres⟩
          intro hmem
          have hmem' := pySample_subset k _ (randBelow (p :: ps).length g).2 _ hmem
          rw [List.getD_eq_getElem _ _ hi] at hmem'
          exact getElem_not_mem_eraseIdx (p :: ps) _ hi hnd hmem'

/-- `random.choice(pool)` for a non-empty `pool`: the element at a random
index.  `dflt` is returned only on an empty list, which every call site
excludes with an explicit guard, mirroring the Python code. -/
def pyChoice {α : Type} (pool : List α) (dflt : α) (g : RandState) : α × RandState :=
  let d := randBelow pool.length g
  (pool.getD d.1 dflt, d.2)

theorem pyChoice_mem {α : Type} (pool : List α) (dflt : α) (g : RandState)
    (h : pool ≠ []) : (pyChoice pool dflt g).1 ∈ pool := by
  have hlen : 0 < pool.length := List.length_pos.mpr h
  have hi := randBelow_lt pool.length g hlen
  simp only [pyChoice]
  rw [List.getD_eq_getElem _ _ hi]
  exact List.getElem_mem hi

/-- The dataset snapshot held by `WorkloadCompiler` after `_scan_dataset`
(fields `sampled_nodes`, `sampled_edges`, `node_property_keys`,
`edge_property_keys`, `sampled_node_props`, `sampled_edge_props`,
`max_dataset_id` of `workload_compiler.py`).  Property dictionaries are
insertion-ordered association lists. -/
structure Snapshot where
  sampledNodes : List Nat
  sampledEdges : List (Nat × Nat)
  nodePropertyKeys : List String
  edgePropertyKeys : List String
  sampledNodeProps : List (Nat × List (String × String))
  sampledEdgeProps : List ((Nat × Nat) × List (String × String))
  maxDatasetId : Nat
deriving Repr

/-- One task entry of the workload config: `name`, `ops` (`task.get('ops', 0)`
already applied), optional `batch_sizes` and `direction`. -/
structure TaskSpec where
  name : String
  ops : Nat
  batchSizes : Option (List Nat) := none
  direction : Option String := none
deriving Repr

/-- The workload config consumed by `compile_workload`: an optional `mode`
(`workload_config.get('mode', 'structural')`) and the ordered task list. -/
structure WorkloadConfig where
  mode : Option String := none
  tasks : List TaskSpec
deriving Repr

/-- Allow-list for mode `structural` (module constant `STRUCTURAL_TASKS`). -/
def STRUCTURAL_TASKS : List String :=
  ["load_graph", "add_vertex", "remove_vertex", "add_edge", "remove_edge", "get_nbrs"]

/-- Allow-list for the property mode (module constant `PROPERTY_TASKS`). -/
def PROPERTY_TASKS : List String :=
  ["load_graph", "update_vertex_property", "update_edge_property",
   "get_vertex_by_property", "get_edge_by_property"]

/-- `WorkloadCompiler._sample_existing_node`: placeholder `1` on an empty
sample, otherwise `random.choice(self.sampled_nodes)`. -/
def sampleExistingNode (sampledNodes : List Nat) (g : RandState) : Nat × RandState :=
  if sampledNodes.isEmpty then (1, g)
  else pyChoice sampledNodes 1 g

/-- `WorkloadCompiler._sample_existing_edge`: placeholder `(1, 2)` on an
empty sample, otherwise `random.choice(self.sampled_edges)`. -/
def sampleExistingEdge (sampledEdges : List (Nat × Nat)) (g : RandState) :
    (Nat × Nat) × RandState :=
  if sampledEdges.isEmpty then ((1, 2), g)
  else pyChoice sampledEdges (1, 2) g

/-- `WorkloadCompiler._generate_new_values`: new values for the existing
property keys, each the string `updated_{seed_id}_{key}`, or the single
fallback pair `_bench_prop ↦ val_{seed_id}` when no keys are known. -/
def generateNewValues (propKeys : List String) (seedId : Nat) :
    List (String × String) :=
  if propKeys.isEmpty then [("_bench_prop", "val_" ++ toString seedId)]
  else propKeys.map (fun key => (key, "updated_" ++ toString seedId ++ "_" ++ key))

/-- `WorkloadCompiler._pick_existing_kv`: an actually-sampled key/value pair
when one exists for the entity; otherwise a known key with the same
generated value that `_generate_new_values` would produce; otherwise the
`_bench_prop` fallback. -/
def pickExistingKv (existingProps : List (String × String)) (propKeys : List String)
    (seedId : Nat) (g : RandState) : Json × RandState :=
  if !existingProps.isEmpty then
    let c := pyChoice (existingProps.map Prod.fst) "" g
    (Json.obj [("key", Json.str c.1),
               ("value", Json.str ((existingProps.lookup c.1).getD ""))], c.2)
  else if !propKeys.isEmpty then
    let c := pyChoice propKeys "" g
    (Json.obj [("key", Json.str c.1),
               ("value", Json.str ("updated_" ++ toString seedId ++ "_" ++ c.1))], c.2)
  else
    (Json.obj [("key", Json.str "_bench_prop"),
               ("value", Json.str ("val_" ++ toString seedId))], g)

/-- Association list of string properties rendered as a JSON object. -/
def strObj (props : List (String × String)) : Json :=
  Json.obj (props.map (fun kv => (kv.1, Json.str kv.2)))

/-- A `{"src": …, "dst": …}` pair object. -/
def pairJson (p : Nat × Nat) : Json :=
  Json.obj [("src", Json.int (p.1 : Int)), ("dst", Json.int (p.2 : Int))]

/-- `WorkloadCompiler._compile_add_vertex`: only a count is emitted. -/
def compileAddVertex (ops : Nat) : Json :=
  Json.obj [("task_type", Json.str "ADD_VERTEX"),
            ("ops_count", Json.int (ops : Int)),
            ("parameters", Json.obj [("count", Json.int (ops : Int))])]

/-- The clamped op count of `_compile_remove_vertex`: `ops`, reduced to the
number of unique sampled nodes (`len(list(set(self.sampled_nodes)))`) when
`ops` exceeds it. -/
def removeVertexOpsCount (snap : Snapshot) (ops : Nat) : Nat :=
  if snap.sampledNodes.dedup.length < ops then snap.sampledNodes.dedup.length else ops

/-- The `ids = random.sample(unique_nodes, ops)` draw of
`_compile_remove_vertex`. -/
def removeVertexIds (snap : Snapshot) (ops : Nat) (g : RandState) :
    List Nat × RandState :=
  pySample (removeVertexOpsCount snap ops) snap.sampledNodes.dedup g

/-- `WorkloadCompiler._compile_remove_vertex`: dedupe the sampled nodes
(`list(set(...))`), clamp `ops` to the unique count with a warning, then
`random.sample` without replacement. -/
def compileRemoveVertex (snap : Snapshot) (ops : Nat) (g : RandState) :
    Json × List String × RandState :=
  let available := snap.sampledNodes.dedup.length
  let warns := if available < ops then
      ["Warning: Requested " ++ toString ops ++ " remove_vertex ops, but only "
        ++ toString available ++ " unique sampled nodes available. Using "
        ++ toString available ++ "."]
    else []
  let s := removeVertexIds snap ops g
  (Json.obj [("task_type", Json.str "REMOVE_VERTEX"),
             ("ops_count", Json.int (removeVertexOpsCount snap ops : Int)),
             ("parameters", Json.obj [("ids", Json.arr (s.1.map (fun n => Json.int (n : Int)))),
                                      ("detach", Json.bool true)])],
   warns, s.2)

/-- The source/destination draws of `_compile_add_edge`'s loop: `ops` pairs,
both endpoints via `_sample_existing_node` (with replacement). -/
def addEdgePairs (sampledNodes : List Nat) : Nat → RandState → List (Nat × Nat) × RandState
  | 0, g => ([], g)
  | n + 1, g =>
      let s1 := sampleExistingNode sampledNodes g
      let s2 := sampleExistingNode sampledNodes s1.2
      let rest := addEdgePairs sampledNodes n s2.2
      ((s1.1, s2.1) :: rest.1, rest.2)

/-- `WorkloadCompiler._compile_add_edge`. -/
def compileAddEdge (snap : Snapshot) (ops : Nat) (g : RandState) :
    Json × List String × RandState :=
  let r := addEdgePairs snap.sampledNodes ops g
  (Json.obj [("task_type", Json.str "ADD_EDGE"),
             ("ops_count", Json.int (ops : Int)),
             ("parameters", Json.obj [("label", Json.str "MyEdge"),
                                      ("pairs", Json.arr (r.1.map pairJson))])],
   [], r.2)

/-- The clamped op count of `_compile_remove_edge`: `ops`, reduced to
`len(self.sampled_edges)` — the raw, not deduplicated, sample size — when
`ops` exceeds it. -/
def removeEdgeOpsCount (snap : Snapshot) (ops : Nat) : Nat :=
  if snap.sampledEdges.length < ops then snap.sampledEdges.length else ops

/-- The `sampled = random.sample(self.sampled_edges, ops)` draw of
`_compile_remove_edge`. -/
def removeEdgePairs (snap : Snapshot) (ops : Nat) (g : RandState) :
    List (Nat × Nat) × RandState :=
  pySample (removeEdgeOpsCount snap ops) snap.sampledEdges g

/-- `WorkloadCompiler._compile_remove_edge`: clamp `ops` to the number of
sampled edges (no dedup in the source!) with a warning, then `random.sample`
without positional replacement. -/
def compileRemoveEdge (snap : Snapshot) (ops : Nat) (g : RandState) :
    Json × List String × RandState :=
  let available := snap.sampledEdges.length
  let warns := if available < ops then
      ["Warning: Requested " ++ toString ops ++ " remove_edge ops, but only "
        ++ toString available ++ " sampled edges available. Using "
        ++ toString available ++ "."]
    else []
  let s := removeEdgePairs snap ops g
  (Json.obj [("task_type", Json.str "REMOVE_EDGE"),
             ("ops_count", Json.int (removeEdgeOpsCount snap ops : Int)),
             ("parameters", Json.obj [("label", Json.str "MyEdge"),
                                      ("pairs", Json.arr (s.1.map pairJson))])],
   warns, s.2)

/-- The loop body of `_compile_property_task`, producing the `ops` items in
order.  For writes the item is the target plus `_generate_new_values`; for
reads it is `_pick_existing_kv` over the actually-sampled properties. -/
def propertyItems (snap : Snapshot) (isEdge isWrite : Bool) :
    Nat → RandState → List Json × RandState
  | 0, g => ([], g)
  | n + 1, g =>
      let step : Json × RandState :=
        if isEdge then
          let se := sampleExistingEdge snap.sampledEdges g
          let existing := (snap.sampledEdgeProps.lookup se.1).getD []
          if isWrite then
            (Json.obj [("src", Json.int (se.1.1 : Int)), ("dst", Json.int (se.1.2 : Int)),
                       ("properties", strObj (generateNewValues snap.edgePropertyKeys se.1.1))],
             se.2)
          else pickExistingKv existing snap.edgePropertyKeys se.1.1 se.2
        else
          let sn := sampleExistingNode snap.sampledNodes g
          let existing := (snap.sampledNodeProps.lookup sn.1).getD []
          if isWrite then
            (Json.obj [("id", Json.int (sn.1 : Int)),
                       ("properties", strObj (generateNewValues snap.nodePropertyKeys sn.1))],
             sn.2)
          else pickExistingKv existing snap.nodePropertyKeys sn.1 sn.2
      let rest := propertyItems snap isEdge isWrite n step.2
      (step.1 :: rest.1, rest.2)

/-- `WorkloadCompiler._compile_property_task`: wraps the items under
`updates` (write) or `queries` (read), appending `label` for edge tasks. -/
def compilePropertyTask (snap : Snapshot) (ops : Nat) (isEdge isWrite : Bool)
    (g : RandState) : Json × List String × RandState :=
  let items := propertyItems snap isEdge isWrite ops g
  let taskType :=
    if isWrite then (if isEdge then "UPDATE_EDGE_PROPERTY" else "UPDATE_VERTEX_PROPERTY")
    else (if isEdge then "GET_EDGE_BY_PROPERTY" else "GET_VERTEX_BY_PROPERTY")
  let paramKey := if isWrite then "updates" else "queries"
  let params :=
    if isEdge then [(paramKey, Json.arr items.1), ("label", Json.str "MyEdge")]
    else [(paramKey, Json.arr items.1)]
  (Json.obj [("task_type", Json.str taskType),
             ("ops_count", Json.int (ops : Int)),
             ("parameters", Json.obj params)],
   [], items.2)

/-- The id draws of `_compile_get_nbrs`'s list comprehension. -/
def nbrIds (sampledNodes : List Nat) : Nat → RandState → List Nat × RandState
  | 0, g => ([], g)
  | n + 1, g =>
      let s := sampleExistingNode sampledNodes g
      let rest := nbrIds sampledNodes n s.2
      (s.1 :: rest.1, rest.2)

/-- `WorkloadCompiler._compile_get_nbrs`. -/
def compileGetNbrs (snap : Snapshot) (ops : Nat) (direction : String) (g : RandState) :
    Json × List String × RandState :=
  let r := nbrIds snap.sampledNodes ops g
  (Json.obj [("task_type", Json.str "GET_NBRS"),
             ("ops_count", Json.int (ops : Int)),
             ("parameters", Json.obj [("direction", Json.str direction),
                                      ("ids", Json.arr (r.1.map (fun n => Json.int (n : Int))))])],
   [], r.2)

/-- `result['batch_sizes'] = batch_sizes`: appends the key at the end of the
(insertion-ordered) result dictionary. -/
def addBatchSizes (j : Json) (bs : List Nat) : Json :=
  match j with
  | Json.obj fields =>
      Json.obj (fields ++ [("batch_sizes", Json.arr (bs.map (fun b => Json.int (b : Int))))])
  | other => other

/-- `WorkloadCompiler._compile_task`: dispatch on the task name, then attach
`batch_sizes` verbatim when present. -/
def compileTask (snap : Snapshot) (t : TaskSpec) (g : RandState) :
    Json × List String × RandState :=
  let base : Json × List String × RandState :=
    if t.name = "add_vertex" then (compileAddVertex t.ops, [], g)
    else if t.name = "remove_vertex" then compileRemoveVertex snap t.ops g
    else if t.name = "add_edge" then compileAddEdge snap t.ops g
    else if t.name = "remove_edge" then compileRemoveEdge snap t.ops g
    else if t.name = "update_vertex_property" then compilePropertyTask snap t.ops false true g
    else if t.name = "get_vertex_by_property" then compilePropertyTask snap t.ops false false g
    else if t.name = "update_edge_property" then compilePropertyTask snap t.ops true true g
    else if t.name = "get_edge_by_property" then compilePropertyTask snap t.ops true false g
    else if t.name = "get_nbrs" then compileGetNbrs snap t.ops (t.direction.getD "OUT") g
    else (Json.obj [("task_type", Json.str t.name.toUpper),
                    ("ops_count", Json.int 0),
                    ("parameters", Json.obj [])], [], g)
  match t.batchSizes with
  | none => base
  | some bs => (addBatchSizes base.1 bs, base.2.1, base.2.2)

/-- Artifact filename `f"{idx:02d}_{task_name}.json"`. -/
def artifactName (idx : Nat) (taskName : String) : String :=
  (if idx < 10 then "0" ++ toString idx else toString idx) ++ "_" ++ taskName ++ ".json"

/-- The compile loop of `compile_workload`: one artifact per task, naming
preserving the original order, randomness threaded task to task. -/
def compileTasksFrom (snap : Snapshot) :
    List TaskSpec → Nat → RandState → List (String × Json) × List String × RandState
  | [], _, g => ([], [], g)
  | t :: ts, idx, g =>
      let c := compileTask snap t g
      let rest := compileTasksFrom snap ts (idx + 1) c.2.2
      ((artifactName idx t.name, c.1) :: rest.1, c.2.1 ++ rest.2.1, rest.2.2)

/-- The mode's allow-list: `STRUCTURAL_TASKS if mode == 'structural' else
PROPERTY_TASKS`. -/
def validTasksFor (mode : String) : List String :=
  if mode = "structural" then STRUCTURAL_TASKS else PROPERTY_TASKS

/-- `WorkloadCompiler.compile_workload` over a fixed snapshot: seeds the
generator when a seed is given, validates every task name against the mode's
allow-list before anything is written (a failure aborts the whole call with
no artifacts), then compiles one artifact per task.  The result is the list
of `(filename, contents)` artifacts plus the warnings printed along the way;
the output directory is wiped first in the source, so this list is the
complete directory content. -/
def compileWorkload (cfg : WorkloadConfig) (snap : Snapshot) (seed : Option Nat)
    (g0 : RandState) : Except String (List (String × Json) × List String) :=
  let g := match seed with
    | some s => seedState s
    | none => g0
  let mode := cfg.mode.getD "structural"
  let valid := validTasksFor mode
  match cfg.tasks.find? (fun t => !(valid.contains t.name)) with
  | some t => Except.error ("Task " ++ t.name ++ " is not valid for mode " ++ mode)
  | none =>
      let r := compileTasksFrom snap cfg.tasks 0 g
      Except.ok (r.1, r.2.1)

/-- The payload of a `subtask_start` event as far as the watchdog needs it
(`task_name`, `num_ops`). -/
structure SubtaskData where
  taskName : String
  numOps : Nat
deriving Repr, DecidableEq

/-- What `TimeoutMonitor.start_subtask_timer` stores in `current_subtask`:
the event data plus the computed `timeout_seconds` and the arming time. -/
structure ArmedInfo where
  data : SubtaskData
  timeoutSeconds : Rat
  startTime : Rat
deriving Repr, DecidableEq

/-- State of `TimeoutMonitor` (`timeout_monitor.py`): the pending
`threading.Timer` (represented by its interval), the `current_subtask`
bookkeeping, and the history of `timeout_callback` invocations.  Every
method of the class runs under `self.lock`, so each of the operations below
is one atomic step; concurrency is interleaving of these steps. -/
structure MonitorState where
  currentTimer : Option Rat
  currentSubtask : Option ArmedInfo
  calls : List ArmedInfo
deriving Repr, DecidableEq

/-- A fresh monitor (`TimeoutMonitor.__init__`). -/
def initMonitor : MonitorState :=
  { currentTimer := none, currentSubtask := none, calls := [] }

/-- `TimeoutMonitor.start_subtask_timer`: cancel any existing timer, compute
`timeout_seconds = num_ops * 0.01`, record the subtask with its arming time,
and arm a fresh single-shot timer. -/
def startSubtaskTimer (d : SubtaskData) (now : Rat) (s : MonitorState) : MonitorState :=
  let t : Rat := (d.numOps : Rat) * (1 / 100)
  { s with currentTimer := some t,
           currentSubtask := some { data := d, timeoutSeconds := t, startTime := now } }

/-- `TimeoutMonitor.cancel_subtask_timer`: cancel the timer if any and clear
the current subtask; a no-op on the timer when none is armed. -/
def cancelSubtaskTimer (s : MonitorState) : MonitorState :=
  { s with currentTimer := none, currentSubtask := none }

/-- `TimeoutMonitor._handle_timeout`, the timer's delivery running under the
lock: if a subtask is still current, invoke the callback once and clear
state; if cancellation already cleared it, do nothing.  The timer-library
race is modelled generously: a delivery attempt may be interleaved at any
point, but `threading.Timer` attempts it at most once per arm. -/
def handleTimeout (s : MonitorState) : MonitorState :=
  match s.currentSubtask with
  | some info =>
      { currentTimer := none, currentSubtask := none, calls := s.calls ++ [info] }
  | none => s

/-- The two steps that can race with an armed timer: the cancellation path
and the timer's own delivery path. -/
inductive WdAction where
  | cancel : WdAction
  | fire : WdAction
deriving Repr, DecidableEq

/-- Run a sequence of interleaved cancel/fire steps against the monitor. -/
def runMonitor (s : MonitorState) : List WdAction → MonitorState
  | [] => s
  | a :: rest =>
      match a with
      | WdAction.cancel => runMonitor (cancelSubtaskTimer s) rest
      | WdAction.fire => runMonitor (handleTimeout s) rest

/-- Coordinator state kept by `ProgressHandler` (`progress_server.py`):
the `restore_expected` flag and the (optional) `timeout_monitor`. -/
structure CoordState where
  restoreExpected : Bool
  monitor : Option MonitorState
deriving Repr, DecidableEq

/-- The inbound progress events (`data.get('event')` dispatch of
`ProgressHandler.do_POST`), with the payload fields the handlers read. -/
inductive Event where
  | taskStart (taskName : String) : Event
  | taskComplete (taskName status : String) : Event
  | subtaskStart (taskName : String) (numOps : Nat) : Event
  | subtaskComplete (taskName status : String) : Event
  | snapshotStart : Event
  | snapshotComplete (status : String) : Event
  | restoreStart : Event
  | restoreComplete (status : String) : Event
  | cleanupStart : Event
  | cleanupComplete (status : String) : Event
  | logMessage (message level : String) : Event
  | errorMessage (message errorType : String) : Event
deriving Repr, DecidableEq

/-- The warning printed by `_handle_subtask_start` on a protocol violation. -/
def restoreWarning : String := "Warning: Expected restore before subtask start"

/-- `ProgressHandler._handle_subtask_start`: warn if a restore was still
expected, clear the flag, and arm the watchdog only when a monitor exists
and `num_ops > 0`. -/
def handleSubtaskStart (taskName : String) (numOps : Nat) (now : Rat)
    (st : CoordState) : CoordState × List String :=
  let warns := if st.restoreExpected then [restoreWarning] else []
  let st1 : CoordState := { st with restoreExpected := false }
  let st2 : CoordState :=
    match st1.monitor with
    | some m =>
        if 0 < numOps
        then { st1 with monitor := some (startSubtaskTimer ⟨taskName, numOps⟩ now m) }
        else st1
    | none => st1
  (st2, warns)

/-- `ProgressHandler._handle_subtask_complete`: cancel the watchdog if a
monitor exists, then set `restore_expected`. -/
def handleSubtaskComplete (st : CoordState) : CoordState × List String :=
  let st1 : CoordState :=
    match st.monitor with
    | some m => { st with monitor := some (cancelSubtaskTimer m) }
    | none => st
  ({ st1 with restoreExpected := true }, [])

/-- `ProgressHandler._handle_restore_complete`: clear `restore_expected`
only on success, report a failure otherwise. -/
def handleRestoreComplete (status : String) (st : CoordState) : CoordState × List String :=
  if status = "success" then ({ st with restoreExpected := false }, [])
  else (st, ["Failed to restore database from snapshot"])

/-- The full event dispatch of `ProgressHandler.do_POST`.  Handlers that
only print leave the state unchanged; none of the handlers raises, so the
dispatch is a total function. -/
def processEvent (now : Rat) (st : CoordState) (e : Event) : CoordState × List String :=
  match e with
  | Event.subtaskStart taskName numOps => handleSubtaskStart taskName numOps now st
  | Event.subtaskComplete _ _ => handleSubtaskComplete st
  | Event.restoreComplete status => handleRestoreComplete status st
  | _ => (st, [])

/-- Process a whole event stream in arrival order, accumulating warnings;
processing never halts early. -/
def processEvents (now : Rat) (st : CoordState) : List Event → CoordState × List String
  | [] => (st, [])
  | e :: rest =>
      let r := processEvent now st e
      let r2 := processEvents now r.1 rest
      (r2.1, r.2 ++ r2.2)

/-- Modelled from the spec: the canonical deterministic mapping for an
identifier `e` claimed in spec.md §4.2, `weight=(e mod 100)/100`,
`age=(e mod 90)+10`, `flag=(e mod 2 == 0)`.  Kept separate from the source
embedding so the two can be compared; the source never computes this. -/
def specCanonicalMapping (e : Nat) (key : String) : Option Json :=
  if key = "weight" then some (Json.num (((e % 100 : Nat) : Rat) / 100))
  else if key = "age" then some (Json.int (((e % 90 : Nat) : Int) + 10))
  else if key = "flag" then some (Json.bool (e % 2 == 0))
  else none

theorem sampleExistingNode_mem (nodes : List Nat) (g : RandState) (h : nodes ≠ []) :
    (sampleExistingNode nodes g).1 ∈ nodes := by
  cases nodes with
  | nil => exact absurd rfl h
  | cons a t =>
      simpa [sampleExistingNode] using pyChoice_mem (a :: t) 1 g (by simp)

theorem sampleExistingEdge_mem (edges : List (Nat × Nat)) (g : RandState)
    (h : edges ≠ []) : (sampleExistingEdge edges g).1 ∈ edges := by
  cases edges with
  | nil => exact absurd rfl h
  | cons a t =>
      simpa [sampleExistingEdge] using pyChoice_mem (a :: t) (1, 2) g (by simp)

theorem addEdgePairs_length (nodes : List Nat) :
    ∀ (n : Nat) (g : RandState), (addEdgePairs nodes n g).1.length = n := by
  intro n
  induction n with
  | zero => intro g; simp [addEdgePairs]
  | succ n ih => intro g; simp [addEdgePairs, ih]

theorem addEdgePairs_mem (nodes : List Nat) (h : nodes ≠ []) :
    ∀ (n : Nat) (g : RandState), ∀ p ∈ (addEdgePairs nodes n g).1,
      p.1 ∈ nodes ∧ p.2 ∈ nodes := by
  intro n
  induction n with
  | zero => intro g p hp; simp [addEdgePairs] at hp
  | succ n ih =>
      intro g p hp
      simp only [addEdgePairs, List.mem_cons] at hp
      rcases hp with hp | hp
      · subst hp
        exact ⟨sampleExistingNode_mem nodes g h, sampleExistingNode_mem nodes _ h⟩
      · exact ih _ p hp

theorem nbrIds_length (nodes : List Nat) :
    ∀ (n : Nat) (g : RandState), (nbrIds nodes n g).1.length = n := by
  intro n
  induction n with
  | zero => intro g; simp [nbrIds]
  | succ n ih => intro g; simp [nbrIds, ih]

theorem nbrIds_mem (nodes : List Nat) (h : nodes ≠ []) :
    ∀ (n : Nat) (g : RandState), ∀ x ∈ (nbrIds nodes n g).1, x ∈ nodes := by
  intro n
  induction n with
  | zero => intro g x hx; simp [nbrIds] at hx
  | succ n ih =>
      intro g x hx
      simp only [nbrIds, List.mem_cons] at hx
      rcases hx with hx | hx
      · exact hx ▸ sampleExistingNode_mem nodes g h
      · exact ih _ x hx

theorem propertyItems_length (snap : Snapshot) (isEdge isWrite : Bool) :
    ∀ (n : Nat) (g : RandState), (propertyItems snap isEdge isWrite n g).1.length = n := by
  intro n
  induction n with
  | zero => intro g; simp [propertyItems]
  | succ n ih => intro g; simp [propertyItems, ih]

theorem addEdgePairs_nil (n : Nat) :
    ∀ (g : RandState), addEdgePairs [] n g = (List.replicate n (1, 1), g) := by
  induction n with
  | zero => intro g; simp [addEdgePairs]
  | succ n ih => intro g; simp [addEdgePairs, sampleExistingNode, ih, List.replicate_succ]

theorem nbrIds_nil (n : Nat) :
    ∀ (g : RandState), nbrIds [] n g = (List.replicate n 1, g) := by
  induction n with
  | zero => intro g; simp [nbrIds]
  | succ n ih => intro g; simp [nbrIds, sampleExistingNode, ih, List.replicate_succ]

/-- C1: for every workload spec, snapshot and fixed seed, two invocations of
`compile_workload` produce identical artifacts — the same `(filename,
contents)` list, hence the same set of output files with the same JSON bytes
(the directory is wiped before writing and `json.dump` is a function of the
structured value).  The two invocations are modelled by running the compiler
from two arbitrary pre-call generator states `g1`, `g2`: `random.seed(seed)`
makes the result independent of them. -/
theorem compileWorkload_deterministic (cfg : WorkloadConfig) (snap : Snapshot)
    (s : Nat) (g1 g2 : RandState) :
    compileWorkload cfg snap (some s) g1 = compileWorkload cfg snap (some s) g2 := rfl

/-- C8: a workload containing any task name outside the selected mode's
allow-list makes `compile_workload` fail with a configuration error; the
validation loop runs before the output directory is touched, so the error
result carries no artifacts — nothing partial is retained. -/
theorem compileWorkload_invalid_task_fails (cfg : WorkloadConfig) (snap : Snapshot)
    (seed : Option Nat) (g0 : RandState)
    (h : ∃ t ∈ cfg.tasks, t.name ∉ validTasksFor (cfg.mode.getD "structural")) :
    ∃ msg, compileWorkload cfg snap seed g0 = Except.error msg := by
  obtain ⟨t, ht, hname⟩ := h
  have hfind : (cfg.tasks.find?
      (fun t => !((validTasksFor (cfg.mode.getD "structural")).contains t.name))).isSome := by
    rw [List.find?_isSome]
    exact ⟨t, ht, by simpa using hname⟩
  rcases hsome : cfg.tasks.find?
      (fun t => !((validTasksFor (cfg.mode.getD "structural")).contains t.name)) with _ | t2
  · rw [hsome] at hfind; simp at hfind
  · refine ⟨"Task " ++ t2.name ++ " is not valid for mode " ++ cfg.mode.getD "structural", ?_⟩
    simp only [compileWorkload, validTasksFor] at *
    rw [hsome]

/-- Snapshot used to exhibit permitted self-loops and duplicates in C9:
a single sampled node forces every endpoint draw to return node `7`. -/
def selfLoopSnap : Snapshot :=
  { sampledNodes := [7], sampledEdges := [], nodePropertyKeys := [],
    edgePropertyKeys := [], sampledNodeProps := [], sampledEdgeProps := [],
    maxDatasetId := 7 }

theorem addEdgePairs_selfLoop (g : RandState) :
    (addEdgePairs selfLoopSnap.sampledNodes 2 g).1 = [(7, 7), (7, 7)] := by
  simp [selfLoopSnap, addEdgePairs, sampleExistingNode, pyChoice, randBelow, Nat.mod_one]

/-- C9: an `add_edge` task compiled against a non-empty node sample emits
exactly `ops` pairs whose endpoints are all sampled nodes (drawn with
replacement), and the artifact renders exactly those pairs; self-loops and
duplicate pairs are permitted — both occur, e.g. for a one-node sample. -/
theorem compileAddEdge_spec (snap : Snapshot) (ops : Nat) (g : RandState)
    (h : snap.sampledNodes ≠ []) :
    (compileAddEdge snap ops g).1
      = Json.obj [("task_type", Json.str "ADD_EDGE"),
                  ("ops_count", Json.int (ops : Int)),
                  ("parameters", Json.obj [("label", Json.str "MyEdge"),
                    ("pairs", Json.arr ((addEdgePairs snap.sampledNodes ops g).1.map pairJson))])]
      ∧ (addEdgePairs snap.sampledNodes ops g).1.length = ops
      ∧ (∀ p ∈ (addEdgePairs snap.sampledNodes ops g).1,
          p.1 ∈ snap.sampledNodes ∧ p.2 ∈ snap.sampledNodes)
      ∧ (∃ p ∈ (addEdgePairs selfLoopSnap.sampledNodes 2 g).1, p.1 = p.2)
      ∧ ¬ (addEdgePairs selfLoopSnap.sampledNodes 2 g).1.Nodup := by
  refine ⟨rfl, addEdgePairs_length _ _ _, addEdgePairs_mem _ h _ _, ?_, ?_⟩
  · exact ⟨(7, 7), by rw [addEdgePairs_selfLoop]; simp, rfl⟩
  · rw [addEdgePairs_selfLoop]
    decide

/-- C10: with an empty snapshot, compilation still succeeds: node draws all
return the placeholder `1`, edge draws the placeholder `(1, 2)`, and the
target-sampling tasks still emit `ops` entries (`add_edge` emits `ops`
`(1, 1)` pairs, `get_nbrs` emits `ops` ids equal to `1`, property tasks emit
`ops` items). -/
theorem emptySnapshot_spec (snap : Snapshot) (g : RandState) (ops : Nat)
    (isEdge isWrite : Bool)
    (hn : snap.sampledNodes = []) (he : snap.sampledEdges = []) :
    sampleExistingNode snap.sampledNodes g = (1, g)
    ∧ sampleExistingEdge snap.sampledEdges g = ((1, 2), g)
    ∧ (addEdgePairs snap.sampledNodes ops g).1 = List.replicate ops (1, 1)
    ∧ (nbrIds snap.sampledNodes ops g).1 = List.replicate ops 1
    ∧ (propertyItems snap isEdge isWrite ops g).1.length = ops := by
  rw [hn, he]
  refine ⟨by simp [sampleExistingNode], by simp [sampleExistingEdge], ?_, ?_, ?_⟩
  · rw [addEdgePairs_nil]
  · rw [nbrIds_nil]
  · exact propertyItems_length _ _ _ _ _

/-- Dictionary lookup on a JSON object (`None` on other values). -/
def Json.field (j : Json) (key : String) : Option Json :=
  match j with
  | Json.obj fields => fields.lookup key
  | _ => none

/-- Association-list lookup over a key/value pairing of a key list picks the
paired value of any member key (first occurrence; equal keys carry equal
values here, as in a Python dict). -/
theorem lookup_pair_map (f : String → String) :
    ∀ (keys : List String) (k : String), k ∈ keys →
      (keys.map (fun key => (key, f key))).lookup k = some (f k) := by
  intro keys
  induction keys with
  | nil => intro k hk; simp at hk
  | cons a t ih =>
      intro k hk
      by_cases hka : k = a
      · subst hka; simp [List.lookup]
      · have hne : (k == a) = false := beq_eq_false_iff_ne.mpr hka
        have hkt : k ∈ t := by
          rcases List.mem_cons.mp hk with hcase | hcase
          · exact absurd hcase hka
          · exact hcase
        simp [List.lookup, hne, ih k hkt]

/-- Snapshot with a duplicated sampled edge: legitimate, since
`_scan_dataset` collects edge rows without deduplication and a dataset may
list the same `(src, dst)` twice. -/
def dupEdgeSnap : Snapshot :=
  { sampledNodes := [1, 2], sampledEdges := [(1, 2), (1, 2)],
    nodePropertyKeys := [], edgePropertyKeys := [], sampledNodeProps := [],
    sampledEdgeProps := [], maxDatasetId := 2 }

/-- C3 counterexample: a `remove_edge` task compiled against a snapshot
whose `sampled_edges` holds the pair `(1, 2)` twice emits that pair twice —
the output is NOT duplicate-free, because the source samples positions of
the raw edge list without deduplicating values. -/
theorem removeEdge_duplicate_pairs_counterexample :
    (compileRemoveEdge dupEdgeSnap 2 (seedState 0)).1
      = Json.obj [("task_type", Json.str "REMOVE_EDGE"),
                  ("ops_count", Json.int 2),
                  ("parameters", Json.obj [("label", Json.str "MyEdge"),
                    ("pairs", Json.arr [pairJson (1, 2), pairJson (1, 2)])])]
    ∧ (removeEdgePairs dupEdgeSnap 2 (seedState 0)).1 = [(1, 2), (1, 2)]
    ∧ ¬ (removeEdgePairs dupEdgeSnap 2 (seedState 0)).1.Nodup := by
  refine ⟨rfl, rfl, ?_⟩
  rw [show (removeEdgePairs dupEdgeSnap 2 (seedState 0)).1 = [(1, 2), (1, 2)] from rfl]
  decide

/-- C3 as amended: `remove_vertex` ids never repeat and all come from the
snapshot's sampled nodes; `remove_edge` pairs all come from the snapshot's
sampled edges, are drawn at pairwise-distinct positions, and are
duplicate-free whenever `sampled_edges` itself is (the artifacts render
exactly these lists). -/
theorem removeTargets_spec (snap : Snapshot) (ops : Nat) (g : RandState) :
    (removeVertexIds snap ops g).1.Nodup
    ∧ (∀ x ∈ (removeVertexIds snap ops g).1, x ∈ snap.sampledNodes)
    ∧ (compileRemoveVertex snap ops g).1.field "parameters"
        = some (Json.obj [("ids", Json.arr ((removeVertexIds snap ops g).1.map
            (fun n => Json.int (n : Int)))), ("detach", Json.bool true)])
    ∧ (∀ p ∈ (removeEdgePairs snap ops g).1, p ∈ snap.sampledEdges)
    ∧ (snap.sampledEdges.Nodup → (removeEdgePairs snap ops g).1.Nodup)
    ∧ (compileRemoveEdge snap ops g).1.field "parameters"
        = some (Json.obj [("label", Json.str "MyEdge"),
            ("pairs", Json.arr ((removeEdgePairs snap ops g).1.map pairJson))]) := by
  refine ⟨?_, ?_, ?_, ?_, ?_, ?_⟩
  · exact pySample_nodup _ _ _ (List.nodup_dedup snap.sampledNodes)
  · intro x hx
    exact List.mem_dedup.mp (pySample_subset _ _ _ _ hx)
  · simp [compileRemoveVertex, Json.field, List.lookup]
  · intro p hp
    exact pySample_subset _ _ _ _ hp
  · intro hnd
    exact pySample_nodup _ _ _ hnd
  · simp [compileRemoveEdge, Json.field, List.lookup]

/-- C4 counterexample: with `sampled_edges = [(1,2), (1,2)]` (one unique
pair) and `ops = 5`, `_compile_remove_edge` clamps to 2 — the raw length of
the sampled edge list — not to the number of unique available samples (1),
refuting the claim's "clamps to the number of unique available samples" for
`remove_edge`. -/
theorem removeEdge_clamp_counterexample :
    (compileRemoveEdge dupEdgeSnap 5 (seedState 0)).1.field "ops_count"
      = some (Json.int 2)
    ∧ dupEdgeSnap.sampledEdges.dedup.length = 1
    ∧ (2 : Int) ≠ 1 := by
  refine ⟨rfl, by decide, by decide⟩

/-- C4 as amended: when the requested ops exceed what the snapshot offers,
compilation does not fail — `remove_vertex` clamps its emitted `ops_count`
to the number of unique sampled nodes, `remove_edge` clamps to the raw
(duplicates included) length of `sampled_edges`, and both log a non-fatal
warning; in particular `remove_vertex` with `ops = 200000` against 50
unique sampled nodes yields `ops_count = 50`. -/
theorem removeShortfall_clamps (snap : Snapshot) (ops : Nat) (g : RandState)
    (hv : snap.sampledNodes.dedup.length < ops)
    (he : snap.sampledEdges.length < ops) :
    removeVertexOpsCount snap ops = snap.sampledNodes.dedup.length
    ∧ (compileRemoveVertex snap ops g).1.field "ops_count"
        = some (Json.int (snap.sampledNodes.dedup.length : Int))
    ∧ (compileRemoveVertex snap ops g).2.1 ≠ []
    ∧ removeEdgeOpsCount snap ops = snap.sampledEdges.length
    ∧ (compileRemoveEdge snap ops g).1.field "ops_count"
        = some (Json.int (snap.sampledEdges.length : Int))
    ∧ (compileRemoveEdge snap ops g).2.1 ≠ [] := by
  refine ⟨?_, ?_, ?_, ?_, ?_, ?_⟩
  · simp [removeVertexOpsCount, hv]
  · simp [compileRemoveVertex, Json.field, List.lookup, removeVertexOpsCount, hv]
  · simp [compileRemoveVertex, hv]
  · simp [removeEdgeOpsCount, he]
  · simp [compileRemoveEdge, Json.field, List.lookup, removeEdgeOpsCount, he]
  · simp [compileRemoveEdge, he]

/-- Snapshot with one sampled node `5`, property key `weight`, and no
sampled property values, used for the C2 counterexample. -/
def propSnap : Snapshot :=
  { sampledNodes := [5], sampledEdges := [], nodePropertyKeys := ["weight"],
    edgePropertyKeys := [], sampledNodeProps := [], sampledEdgeProps := [],
    maxDatasetId := 5 }

/-- C2 counterexample: with no sampled property data, the compiler writes
the string `"updated_5_weight"` for node `5` under key `weight` — not the
spec's canonical value `(5 mod 100)/100`.  The code has no trace of the
`weight/age/flag` mapping. -/
theorem canonicalMapping_counterexample :
    (compilePropertyTask propSnap 1 false true (seedState 0)).1
      = Json.obj [("task_type", Json.str "UPDATE_VERTEX_PROPERTY"),
                  ("ops_count", Json.int 1),
                  ("parameters", Json.obj [("updates", Json.arr
                    [Json.obj [("id", Json.int 5),
                      ("properties", Json.obj [("weight", Json.str "updated_5_weight")])]])])]
    ∧ specCanonicalMapping 5 "weight" = some (Json.num (((5 % 100 : Nat) : Rat) / 100))
    ∧ some (Json.str "updated_5_weight") ≠ specCanonicalMapping 5 "weight" := by
  refine ⟨rfl, rfl, ?_⟩
  intro h
  simp [specCanonicalMapping] at h

/-- C2 as amended: with no sampled property data for an entity `e`, the
compiled property values are the deterministic strings
`updated_{e}_{key}`; an `update_vertex_property` task and a
`get_vertex_by_property` task compiled separately for the same id agree —
the key the get task queries is one of the known keys, and its expected
value is exactly the value the update task writes under that key. -/
theorem updateGetAgree (e : Nat) (keys : List String) (g : RandState)
    (hk : keys ≠ []) :
    generateNewValues keys e
      = keys.map (fun key => (key, "updated_" ++ toString e ++ "_" ++ key))
    ∧ ∃ c ∈ keys,
        (pickExistingKv [] keys e g).1
          = Json.obj [("key", Json.str c),
                      ("value", Json.str ("updated_" ++ toString e ++ "_" ++ c))]
        ∧ (generateNewValues keys e).lookup c
            = some ("updated_" ++ toString e ++ "_" ++ c) := by
  have hempty : keys.isEmpty = false := by
    cases keys with
    | nil => exact absurd rfl hk
    | cons a t => rfl
  have hgen : generateNewValues keys e
      = keys.map (fun key => (key, "updated_" ++ toString e ++ "_" ++ key)) := by
    simp [generateNewValues, hempty]
  refine ⟨hgen, (pyChoice keys "" g).1, pyChoice_mem keys "" g hk, ?_, ?_⟩
  · simp [pickExistingKv, hempty]
  · rw [hgen]
    exact lookup_pair_map _ keys _ (pyChoice_mem keys "" g hk)

/-- Once `current_subtask` is cleared, no later cancel/fire step can invoke
the callback again or resurrect the subtask: both paths check the field
under the lock. -/
theorem runMonitor_cleared (acts : List WdAction) :
    ∀ (s : MonitorState), s.currentSubtask = none →
      (runMonitor s acts).calls = s.calls
      ∧ (runMonitor s acts).currentSubtask = none := by
  induction acts with
  | nil => intro s hs; exact ⟨rfl, hs⟩
  | cons a rest ih =>
      intro s hs
      cases a with
      | cancel => exact ih (cancelSubtaskTimer s) rfl
      | fire =>
          have hfix : handleTimeout s = s := by
            simp [handleTimeout, hs]
          rw [runMonitor, hfix]
          exact ih s hs

/-- From an armed state the callback history can only grow by the armed
info, once. -/
theorem runMonitor_armed (acts : List WdAction) :
    ∀ (s : MonitorState) (info : ArmedInfo), s.currentSubtask = some info →
      (runMonitor s acts).calls = s.calls
      ∨ (runMonitor s acts).calls = s.calls ++ [info] := by
  induction acts with
  | nil => intro s info _; exact Or.inl rfl
  | cons a rest ih =>
      intro s info hs
      cases a with
      | cancel =>
          exact Or.inl (runMonitor_cleared rest (cancelSubtaskTimer s) rfl).1
      | fire =>
          have hfire : handleTimeout s
              = { currentTimer := none, currentSubtask := none,
                  calls := s.calls ++ [info] } := by
            simp [handleTimeout, hs]
          rw [runMonitor, hfire]
          exact Or.inr (runMonitor_cleared rest _ rfl).1

/-- C5: for a single arming of the watchdog, under any interleaving of
cancellation steps and (at-will, even post-cancel) timer delivery attempts:
the abort callback runs at most once; if some cancel step strictly precedes
every delivery attempt, it never runs — in particular `cancel()` right
after `start()` yields zero invocations, ever; and an uncancelled delivery
invokes it exactly once, with no later re-fire. -/
theorem watchdogAtMostOnce (d : SubtaskData) (now : Rat) (acts : List WdAction) :
    (runMonitor (startSubtaskTimer d now initMonitor) acts).calls.length ≤ 1
    ∧ (∀ pre post, acts = pre ++ WdAction.cancel :: post → WdAction.fire ∉ pre →
        (runMonitor (startSubtaskTimer d now initMonitor) acts).calls = [])
    ∧ (∀ rest, acts = WdAction.fire :: rest →
        (runMonitor (startSubtaskTimer d now initMonitor) acts).calls
          = [⟨d, (d.numOps : Rat) * (1 / 100), now⟩]) := by
  have harm : (startSubtaskTimer d now initMonitor).currentSubtask
      = some ⟨d, (d.numOps : Rat) * (1 / 100), now⟩ := rfl
  have hcalls : (startSubtaskTimer d now initMonitor).calls = [] := rfl
  refine ⟨?_, ?_, ?_⟩
  · rcases runMonitor_armed acts _ _ harm with hc | hc <;> rw [hc, hcalls] <;> simp
  · intro pre
    induction pre generalizing acts with
    | nil =>
        intro post hacts _
        subst hacts
        have h1 : runMonitor (startSubtaskTimer d now initMonitor)
            ([] ++ WdAction.cancel :: post)
            = runMonitor (cancelSubtaskTimer (startSubtaskTimer d now initMonitor)) post := rfl
        rw [h1, (runMonitor_cleared post _ rfl).1]
        rfl
    | cons a pre' ih =>
        intro post hacts hnofire
        subst hacts
        cases a with
        | cancel =>
            have h1 : runMonitor (startSubtaskTimer d now initMonitor)
                ((WdAction.cancel :: pre') ++ WdAction.cancel :: post)
                = runMonitor (cancelSubtaskTimer (startSubtaskTimer d now initMonitor))
                    (pre' ++ WdAction.cancel :: post) := rfl
            rw [h1, (runMonitor_cleared _ _ rfl).1]
            rfl
        | fire => exact absurd (List.mem_cons_self _ _) hnofire
  · intro rest hacts
    subst hacts
    have h1 : runMonitor (startSubtaskTimer d now initMonitor) (WdAction.fire :: rest)
        = runMonitor (handleTimeout (startSubtaskTimer d now initMonitor)) rest := rfl
    have h2 : handleTimeout (startSubtaskTimer d now initMonitor)
        = { currentTimer := none, currentSubtask := none,
            calls := [⟨d, (d.numOps : Rat) * (1 / 100), now⟩] } := rfl
    rw [h1, h2, (runMonitor_cleared rest _ rfl).1]

/-- C6: on `subtask_start` with `num_ops > 0` the coordinator arms the
watchdog with interval `num_ops × 10 ms` (`num_ops × 0.01 s`), the arming
time recorded as the event's arrival, while `num_ops = 0` arms nothing; on
`subtask_complete` the watchdog is disarmed unconditionally, and disarming
is idempotent, never invokes the callback, and is safe with no active
timer. -/
theorem subtaskTimerContract (st : CoordState) (m : MonitorState)
    (taskName : String) (numOps : Nat) (now : Rat)
    (hm : st.monitor = some m) :
    (0 < numOps →
      (handleSubtaskStart taskName numOps now st).1.monitor
        = some (startSubtaskTimer ⟨taskName, numOps⟩ now m))
    ∧ (startSubtaskTimer ⟨taskName, numOps⟩ now m).currentTimer
        = some ((numOps : Rat) * 10 / 1000)
    ∧ (startSubtaskTimer ⟨taskName, numOps⟩ now m).currentSubtask
        = some ⟨⟨taskName, numOps⟩, (numOps : Rat) * 10 / 1000, now⟩
    ∧ (numOps = 0 → (handleSubtaskStart taskName numOps now st).1.monitor = st.monitor)
    ∧ (handleSubtaskComplete st).1.monitor = some (cancelSubtaskTimer m)
    ∧ (∀ m' : MonitorState, cancelSubtaskTimer (cancelSubtaskTimer m') = cancelSubtaskTimer m')
    ∧ (∀ m' : MonitorState, (cancelSubtaskTimer m').calls = m'.calls
        ∧ (cancelSubtaskTimer m').currentTimer = none) := by
  have hrat : (numOps : Rat) * (1 / 100) = (numOps : Rat) * 10 / 1000 := by ring
  refine ⟨?_, ?_, ?_, ?_, ?_, ?_, ?_⟩
  · intro hpos
    simp [handleSubtaskStart, hm, hpos]
  · rw [← hrat]; rfl
  · rw [← hrat]; rfl
  · intro hzero
    simp [handleSubtaskStart, hm, hzero]
  · simp [handleSubtaskComplete, hm]
  · intro m'; rfl
  · intro m'; exact ⟨rfl, rfl⟩

/-- C7: `restore_expected` is true immediately after every
`subtask_complete`, cleared by a successful `restore_complete`; a
`subtask_start` arriving while the flag is still set emits the warning but
is handled normally — no error, no abort (the callback history of the
monitor is untouched), and processing of the rest of the stream continues
exactly as the fold prescribes (the dispatch is a total function: no
handler raises). -/
theorem restoreProtocol (st : CoordState) (now : Rat) (tn status : String)
    (numOps : Nat) :
    (processEvent now st (Event.subtaskComplete tn status)).1.restoreExpected = true
    ∧ (processEvent now st (Event.restoreComplete "success")).1.restoreExpected = false
    ∧ (st.restoreExpected = true →
        restoreWarning ∈ (processEvent now st (Event.subtaskStart tn numOps)).2)
    ∧ (st.restoreExpected = false →
        (processEvent now st (Event.subtaskStart tn numOps)).2 = [])
    ∧ (∀ m, st.monitor = some m →
        ∃ m2, (processEvent now st (Event.subtaskStart tn numOps)).1.monitor = some m2
          ∧ m2.calls = m.calls)
    ∧ (∀ es : List Event,
        processEvents now st (Event.subtaskStart tn numOps :: es)
          = ((processEvents now
                (processEvent now st (Event.subtaskStart tn numOps)).1 es).1,
             (processEvent now st (Event.subtaskStart tn numOps)).2
               ++ (processEvents now
                (processEvent now st (Event.subtaskStart tn numOps)).1 es).2)) := by
  refine ⟨?_, ?_, ?_, ?_, ?_, ?_⟩
  · cases hmon : st.monitor <;>
      simp [processEvent, handleSubtaskComplete, hmon]
  · simp [processEvent, handleRestoreComplete]
  · intro hflag
    simp [processEvent, handleSubtaskStart, hflag]
  · intro hflag
    simp [processEvent, handleSubtaskStart, hflag]
  · intro m hm
    by_cases hpos : 0 < numOps
    · exact ⟨startSubtaskTimer ⟨tn, numOps⟩ now m,
        by simp [processEvent, handleSubtaskStart, hm, hpos], rfl⟩
    · exact ⟨m, by simp [processEvent, handleSubtaskStart, hm, hpos], rfl⟩
  · intro es; rfl

/-- A workload config holding one task name outside every allow-list. -/
def badCfg : WorkloadConfig :=
  { mode := none, tasks := [{ name := "bogus_task", ops := 3 }] }

/-- An entirely empty snapshot (no scan performed). -/
def emptySnap : Snapshot :=
  { sampledNodes := [], sampledEdges := [], nodePropertyKeys := [],
    edgePropertyKeys := [], sampledNodeProps := [], sampledEdgeProps := [],
    maxDatasetId := 0 }

/-- A snapshot with 50 distinct sampled nodes and no sampled edges. -/
def fiftySnap : Snapshot :=
  { sampledNodes := List.range 50, sampledEdges := [], nodePropertyKeys := [],
    edgePropertyKeys := [], sampledNodeProps := [], sampledEdgeProps := [],
    maxDatasetId := 49 }

/-- A coordinator with an installed, idle timeout monitor. -/
def coordW : CoordState := { restoreExpected := false, monitor := some initMonitor }

theorem compileWorkload_invalid_task_fails_witness :
    ∃ msg, compileWorkload badCfg emptySnap none (seedState 0) = Except.error msg :=
  compileWorkload_invalid_task_fails badCfg emptySnap none (seedState 0)
    ⟨{ name := "bogus_task", ops := 3 }, List.mem_singleton.mpr rfl, by decide⟩

theorem compileAddEdge_spec_witness :
    (addEdgePairs selfLoopSnap.sampledNodes 2 (seedState 0)).1.length = 2 :=
  (compileAddEdge_spec selfLoopSnap 2 (seedState 0) (by decide)).2.1

theorem emptySnapshot_spec_witness :
    sampleExistingNode emptySnap.sampledNodes (seedState 1) = (1, seedState 1)
    ∧ (propertyItems emptySnap false true 3 (seedState 1)).1.length = 3 :=
  ⟨(emptySnapshot_spec emptySnap (seedState 1) 3 false true rfl rfl).1,
   (emptySnapshot_spec emptySnap (seedState 1) 3 false true rfl rfl).2.2.2.2⟩

theorem removeShortfall_clamps_witness :
    removeVertexOpsCount fiftySnap 200000 = fiftySnap.sampledNodes.dedup.length
    ∧ fiftySnap.sampledNodes.dedup.length = 50 :=
  ⟨(removeShortfall_clamps fiftySnap 200000 (seedState 7) (by decide) (by decide)).1,
   by decide⟩

theorem updateGetAgree_witness :
    generateNewValues ["weight"] 5
      = ["weight"].map (fun key => (key, "updated_" ++ toString 5 ++ "_" ++ key))
    ∧ ∃ c ∈ ["weight"],
        (pickExistingKv [] ["weight"] 5 (seedState 3)).1
          = Json.obj [("key", Json.str c),
                      ("value", Json.str ("updated_" ++ toString 5 ++ "_" ++ c))]
        ∧ (generateNewValues ["weight"] 5).lookup c
            = some ("updated_" ++ toString 5 ++ "_" ++ c) :=
  updateGetAgree 5 ["weight"] (seedState 3) (List.cons_ne_nil _ _)

theorem subtaskTimerContract_witness :
    (startSubtaskTimer ⟨"t", 5⟩ 0 initMonitor).currentTimer
      = some ((5 : Rat) * 10 / 1000) :=
  (subtaskTimerContract coordW initMonitor "t" 5 0 rfl).2.1

end GraphBench
